import Mathlib

/-!
Shallow embedding of `app.py`, a webhook-triggered pipeline that generates a
static web application with an opaque text-generation backend, publishes it to
a remote repository backend, enables static hosting, and notifies an external
evaluator with bounded retries.

External collaborators (the generation backend, the HTTP repository backend,
base64/UTF-8 codecs from the standard library, the clock) are passed in as
explicit function parameters or pre-computed responses; the repository's own
control flow is translated faithfully.  Python exceptions are modelled with
`Except Err`.
-/

set_option maxHeartbeats 1000000

/-- Errors: each constructor stands for one family of Python exceptions raised
by the source (`KeyError`, the generation backend failing, each
`raise Exception(...)` site, an uncaught base64/UTF-8 decode error, and the
terminal notification failure). -/
inductive Err where
  | keyErr (k : String)
  | backendErr (msg : String)
  | createRepoFailed (status : Nat)
  | pushFailed (path : String) (status : Nat)
  | fetchFailed (path : String) (status : Nat)
  | pagesFailed (status : Nat)
  | decodeErr
  | deliveryFailed
deriving DecidableEq, Repr

/-- One attachment record from the inbound JSON.  Python dicts may lack the
`name` or `url` key, hence `Option`. -/
structure Attachment where
  name : Option String
  url : Option String
deriving DecidableEq, Repr

/-- Python `s.split(m, 1)` unpacked into two parts: the text before the first
comma and the text after it; `none` when no comma occurs (the two-variable
unpacking then raises `ValueError`). -/
def splitFirstAux : List Char → Option (List Char × List Char)
  | [] => none
  | c :: rest =>
    if c = ',' then some ([], rest)
    else (splitFirstAux rest).map (fun p => (c :: p.1, p.2))

/-- `attachment['url'].split(',', 1)` from `process_attachments`. -/
def splitFirstComma (s : String) : Option (String × String) :=
  (splitFirstAux s.toList).map (fun p => (p.1.asString, p.2.asString))

/-- The `try` block body of `process_attachments`, line by line: read
`attachment['url']` (KeyError when absent), split off the data-URI header
(ValueError when no comma), decode the payload (`decode` stands for
`base64.b64decode(...).decode('utf-8')`, `none` when either raises), then
build the success block whose f-string reads `attachment['name']` (KeyError
when absent).  Any failure is caught by the `except` clause, so the whole
block is an `Option`. -/
def tryBlock (decode : String → Option String) (a : Attachment) : Option String :=
  match a.url with
  | none => none
  | some url =>
    match splitFirstComma url with
    | none => none
    | some (_, encoded) =>
      match decode encoded with
      | none => none
      | some decoded_content =>
        match a.name with
        | none => none
        | some nm =>
          some s!"--- Attachment File: {nm} ---\n{decoded_content}\n--- End of {nm} ---"

/-- One iteration of the `for attachment in attachments` loop: on success the
decoded block, on any caught exception the failure-marker block - whose
f-string reads `attachment['name']` unguarded, so a nameless attachment
re-raises `KeyError` out of the whole function. -/
def decodeOneAttachment (decode : String → Option String) (a : Attachment) :
    Except Err String :=
  match tryBlock decode a with
  | some s => .ok s
  | none =>
    match a.name with
    | some nm => .ok s!"--- Attachment File: {nm} (DECODING FAILED) ---"
    | none => .error (.keyErr "name")

/-- The loop of `process_attachments`, accumulating `content_list`; an
uncaught exception aborts the loop. -/
def attachmentsGo (decode : String → Option String) :
    List Attachment → Except Err (List String)
  | [] => .ok []
  | a :: rest =>
    match decodeOneAttachment decode a with
    | .error e => .error e
    | .ok s =>
      match attachmentsGo decode rest with
      | .error e => .error e
      | .ok l => .ok (s :: l)

/-- `process_attachments(attachments)`: `if not attachments: return ""` (both
`None` and `[]` are falsy), then the loop, then `"\n\n".join(content_list)`. -/
def process_attachments (decode : String → Option String)
    (attachments : Option (List Attachment)) : Except Err String :=
  match attachments with
  | none => .ok ""
  | some [] => .ok ""
  | some atts => (attachmentsGo decode atts).map (String.intercalate "\n\n")

/-- The block `process_attachments` contributes for one attachment that has a
`name` key: the decoded block when the `try` body succeeds, the
failure-marker block otherwise. -/
def attachmentBlock (decode : String → Option String) (a : Attachment) : String :=
  match tryBlock decode a with
  | some s => s
  | none =>
    let nm := a.name.getD ""
    s!"--- Attachment File: {nm} (DECODING FAILED) ---"

/-! ## Content generation (`generate_code_with_gemini` and friends)

The generation backend (`genai.GenerativeModel('gemini-2.5-flash')`) is opaque:
it is passed in as `gemini : String → Except Err String`, mapping the prompt to
the response text (or a raised backend error). -/

/-- The f-string prompt of `generate_code_with_gemini`, including the
triple-quoted string's leading newline and four-space indentation.
`joinedChecks` is `'- '.join(checks)`; an empty `attachments_content` is falsy
and replaced by `"None"`. -/
def generate_code_prompt (brief : String) (checks : List String)
    (attachments_content : String) : String :=
  let joinedChecks := String.intercalate "- " checks
  let attText := if attachments_content = "" then "None" else attachments_content
  s!"\n    You are an expert full-stack web developer. Your task is to build a single-page web application based on the following brief.\n    You must generate a single index.html file that includes all necessary HTML, CSS, and JavaScript.\n    Use CDN links for any external libraries like Bootstrap or jQuery if needed.\n    The generated code must be correct and directly usable.\n\n    BRIEF:\n    {brief}\n\n    EVALUATION CHECKS:\n    The code will be evaluated against these checks. Ensure the generated code can pass them:\n    - {joinedChecks}\n\n    ATTACHED FILE CONTENTS:\n    The user has provided the following file contents. Use them to complete the brief.\n    {attText}\n\n    Respond ONLY with the complete HTML code inside a single markdown code block. Do not add any explanatory comments.\n    "

/-- The f-string prompt of `revise_code_with_gemini`. -/
def revise_code_prompt (brief : String) (checks : List String)
    (attachments_content original_code : String) : String :=
  let joinedChecks := String.intercalate "- " checks
  let attText := if attachments_content = "" then "None" else attachments_content
  s!"\n    You are an expert full-stack web developer. Your task is to revise an existing HTML file based on a new brief.\n    Do not add any explanatory comments, just provide the final, complete, updated code.\n\n    NEW REVISION BRIEF:\n    {brief}\n\n    NEW EVALUATION CHECKS:\n    The updated code must pass these new checks:\n    - {joinedChecks}\n    \n    NEW ATTACHED FILE CONTENTS:\n    {attText}\n\n    ORIGINAL `index.html` CODE TO BE REVISED:\n    ```html\n    {original_code}\n    ```\n\n    Respond ONLY with the complete and updated HTML code inside a single markdown code block.\n    "

/-- The f-string prompt of `generate_readme_with_gemini`. -/
def generate_readme_prompt (brief : String) : String :=
  s!"\n    You are a professional technical writer. Based on the following application brief, write a professional README.md file.\n    The README must include the following sections:\n    - A suitable title for the project.\n    - Summary: A brief summary of what the project does.\n    - Setup: Explain that it\x27s a static site and no local setup is needed to run it.\n    - Usage: Explain how to view and use the live deployed page.\n    - Code Explanation: Briefly explain how the HTML, CSS, and JavaScript work together to achieve the goal.\n    - License: State that the project is under the MIT License.\n\n    APPLICATION BRIEF:\n    \"{brief}\"\n\n    Respond ONLY with the complete markdown content for the README.md file.\n    "

/-- The f-string prompt of `revise_readme_with_gemini`. -/
def revise_readme_prompt (brief original_readme : String) : String :=
  s!"\n    You are a technical writer. Your task is to update an existing README.md file based on a new brief describing changes to the application.\n    Ensure the summary, usage, and code explanation sections are updated to reflect the new functionality.\n    NEW BRIEF FOR CHANGES: \"{brief}\"\n    ORIGINAL README.md CONTENT:\n    {original_readme}\n    Respond ONLY with the complete and updated markdown content for the README.md file.\n    "

/-- Boolean equality of a character pattern with the start of a character
list. -/
def strPref : List Char → List Char → Bool
  | [], _ => true
  | _ :: _, [] => false
  | a :: as, b :: bs => a == b && strPref as bs

/-- Index of the leftmost occurrence of `pat` in the list, `none` if absent. -/
def findSubFrom (pat : List Char) : List Char → Option Nat
  | [] => if pat.isEmpty then some 0 else none
  | c :: rest =>
    if strPref pat (c :: rest) then some 0
    else (findSubFrom pat rest).map (· + 1)

/-- Index of the rightmost occurrence of `pat` in the list, `none` if absent. -/
def findLastSub (pat : List Char) : List Char → Option Nat
  | [] => if pat.isEmpty then some 0 else none
  | c :: rest =>
    match findLastSub pat rest with
    | some j => some (j + 1)
    | none => if strPref pat (c :: rest) then some 0 else none

/-- The characters Python's `str.strip()` removes (ASCII whitespace). -/
def isPySpace (c : Char) : Bool :=
  c == ' ' || c == '\t' || c == '\n' || c == '\r' ||
    c == Char.ofNat 11 || c == Char.ofNat 12

/-- Python `str.strip()`: drop whitespace from both ends. -/
def pyStrip (cs : List Char) : List Char :=
  ((cs.dropWhile isPySpace).reverse.dropWhile isPySpace).reverse

/-- `re.search(r'```html(.*)```', text, re.DOTALL)` followed by
`.group(1).strip()`: the regex matches at the leftmost occurrence of the
7-character opener, and the greedy DOTALL group extends to the rightmost
later occurrence of the 3-character closer ("```html" cannot overlap itself,
so if the leftmost opener has no closer after it, no later match exists
either).  `none` models `re.search` returning `None`, in which case
`.group(1)` raises `AttributeError`. -/
def extract_html (text : String) : Option String :=
  let cs := text.toList
  match findSubFrom ("```html".toList) cs with
  | none => none
  | some i =>
    let t := cs.drop (i + 7)
    match findLastSub ("```".toList) t with
    | none => none
    | some j => some (pyStrip (t.take j)).asString

/-- `generate_code_with_gemini(brief, checks, attachments_content)`: build the
prompt, call the backend, extract the fenced html block; on `AttributeError`
(no match) fall back to the raw response text. -/
def generate_code_with_gemini (gemini : String → Except Err String)
    (brief : String) (checks : List String) (attachments_content : String) :
    Except Err String :=
  match gemini (generate_code_prompt brief checks attachments_content) with
  | .error e => .error e
  | .ok t =>
    match extract_html t with
    | some code => .ok code
    | none => .ok t

/-- `revise_code_with_gemini(brief, checks, attachments_content,
original_code)`: same extraction and raw-text fallback as generation. -/
def revise_code_with_gemini (gemini : String → Except Err String)
    (brief : String) (checks : List String)
    (attachments_content original_code : String) : Except Err String :=
  match gemini (revise_code_prompt brief checks attachments_content original_code) with
  | .error e => .error e
  | .ok t =>
    match extract_html t with
    | some code => .ok code
    | none => .ok t

/-- `generate_readme_with_gemini(brief)`: the full response text is the
document, no extraction. -/
def generate_readme_with_gemini (gemini : String → Except Err String)
    (brief : String) : Except Err String :=
  gemini (generate_readme_prompt brief)

/-- `revise_readme_with_gemini(brief, original_readme)`. -/
def revise_readme_with_gemini (gemini : String → Except Err String)
    (brief original_readme : String) : Except Err String :=
  gemini (revise_readme_prompt brief original_readme)

/-- `get_mit_license()`: the static MIT text with the year (from
`time.strftime`) and the configured username interpolated. -/
def get_mit_license (year user : String) : String :=
  s!"Copyright (c) {year} {user}\n\nPermission is hereby granted, free of charge, to any person obtaining a copy\nof this software and associated documentation files (the \"Software\"), to deal\nin the Software without restriction, including without limitation the rights\nto use, copy, modify, merge, publish, distribute, sublicense, and/or sell\ncopies of the Software, and to permit persons to whom the Software is\nfurnished to do so, subject to the following conditions:\n\nThe above copyright notice and this permission notice shall be included in all\ncopies or substantial portions of the Software.\n\nTHE SOFTWARE IS PROVIDED \"AS IS\", WITHOUT WARRANTY OF ANY KIND, EXPRESS OR\nIMPLIED, INCLUDING BUT NOT LIMITED TO THE WARRANTIES OF MERCHANTABILITY,\nFITNESS FOR A PARTICULAR PURPOSE AND NONINFRINGEMENT. IN NO EVENT SHALL THE\nAUTHORS OR COPYRIGHT HOLDERS BE LIABLE FOR ANY CLAIM, DAMAGES OR OTHER\nLIABILITY, WHETHER IN AN ACTION OF CONTRACT, TORT OR OTHERWISE, ARISING FROM,\nOUT OF OR IN CONNECTION WITH THE SOFTWARE OR THE USE OR OTHER DEALINGS IN THE\nSOFTWARE.\n"

/-! ## Repository publisher (`create_github_repo` etc.)

The HTTP repository backend is opaque: each helper receives the response(s)
the backend would return for the request it issues. -/

/-- The `response.json()` fields of repository creation that the pipeline
uses. -/
structure RepoInfo where
  html_url : String
deriving DecidableEq, Repr

/-- Backend response to the repository-creation POST. -/
structure CreateResp where
  status : Nat
  html_url : String
deriving DecidableEq, Repr

/-- The f-string `https://github.com/{GITHUB_USERNAME}/{repo_name}`, written
at the already-exists branch of `create_github_repo` and at the revision
notification payload. -/
def canonicalRepoUrl (user name : String) : String :=
  s!"https://github.com/{user}/{name}"

/-- `create_github_repo(repo_name)`: 201 means created (return the backend's
JSON), 422 means the repository already exists (treated as success, URL
synthesized), anything else raises. -/
def create_github_repo (user repo_name : String) (resp : CreateResp) :
    Except Err RepoInfo :=
  if resp.status = 201 then .ok ⟨resp.html_url⟩
  else if resp.status = 422 then .ok ⟨canonicalRepoUrl user repo_name⟩
  else .error (.createRepoFailed resp.status)

/-- One entry of the `files_with_content` dict: content plus the optional
`"sha"` version token. -/
structure FileEntry where
  content : String
  sha : Option String
deriving DecidableEq, Repr

/-- The JSON body of one contents-API PUT.  `enc` stands for
`base64.b64encode(...).decode('utf-8')`; an empty-string stored token is falsy
in Python, so `if data.get("sha"):` omits the `sha` field for it. -/
structure PutPayload where
  message : String
  content : String
  committerName : String
  committerEmail : String
  sha : Option String
deriving DecidableEq, Repr

/-- Backend response to one contents-API PUT: HTTP status and
`json()["commit"]["sha"]`. -/
structure PutResult where
  status : Nat
  commitSha : String
deriving DecidableEq, Repr

/-- `response.status_code in [200, 201]`. -/
def putOk (r : PutResult) : Bool :=
  r.status == 200 || r.status == 201

/-- Payload construction inside the loop of
`create_or_update_files_in_repo`. -/
def mkPayload (enc : String → String) (msg : String) (d : FileEntry) : PutPayload :=
  { message := msg
    content := enc d.content
    committerName := "LLM Code Bot"
    committerEmail := "bot@example.com"
    sha := match d.sha with
      | some s => if s = "" then none else some s
      | none => none }

/-- The `for file_path, data in files_with_content.items()` loop carrying
`latest_commit_sha` (initially `""`).  The second component records the paths
whose PUT succeeded before the loop ended - the files that remain committed
when a later PUT raises. -/
def pushGo (enc : String → String) (put : String → PutPayload → PutResult)
    (msg : String) :
    List (String × FileEntry) → String → Except Err String × List String
  | [], latest => (.ok latest, [])
  | (p, d) :: rest, _latest =>
    let r := put p (mkPayload enc msg d)
    if putOk r then
      let out := pushGo enc put msg rest r.commitSha
      (out.1, p :: out.2)
    else (.error (.pushFailed p r.status), [])

/-- `create_or_update_files_in_repo(repo_name, files_with_content,
commit_message)`: dict iteration order is insertion order, so the files are a
list in the order the caller supplied. -/
def create_or_update_files_in_repo (enc : String → String)
    (put : String → PutPayload → PutResult)
    (files : List (String × FileEntry)) (commit_message : String) :
    Except Err String × List String :=
  pushGo enc put commit_message files ""

/-- Backend response to the contents-API GET for one path. -/
structure GetResp where
  status : Nat
  content : String
  sha : String
deriving DecidableEq, Repr

/-- What `get_file_from_repo` returns: the decoded content and the version
token. -/
structure Fetched where
  content : String
  sha : String
deriving DecidableEq, Repr

/-- `get_file_from_repo(repo_name, file_path)`: on 200, base64-decode the
body content (an uncaught codec error propagates); otherwise raise. -/
def get_file_from_repo (decode : String → Option String) (file_path : String)
    (resp : GetResp) : Except Err Fetched :=
  if resp.status = 200 then
    match decode resp.content with
    | some c => .ok ⟨c, resp.sha⟩
    | none => .error .decodeErr
  else .error (.fetchFailed file_path resp.status)

/-- Backend response to a pages POST or GET. -/
structure PagesResp where
  status : Nat
  html_url : String
deriving DecidableEq, Repr

/-- `enable_github_pages(repo_name)`: POST; on 201 return the new pages URL;
otherwise GET the pages configuration and on 200 return the existing URL
(the already-enabled case); otherwise raise with the POST status. -/
def enable_github_pages (postResp getResp : PagesResp) : Except Err String :=
  if postResp.status = 201 then .ok postResp.html_url
  else if getResp.status = 200 then .ok getResp.html_url
  else .error (.pagesFailed postResp.status)

/-! ## Notification dispatcher (`notify_evaluation_api`) -/

/-- What one `requests.post` attempt produces: an HTTP status code, or a
raised `requests.exceptions.RequestException` (timeouts included). -/
inductive Outcome where
  | status (code : Nat)
  | exc
deriving DecidableEq, Repr

/-- `response.status_code == 200` (an exception is not a 200). -/
def is200 : Outcome → Bool
  | .status n => n == 200
  | .exc => false

instance {ε α : Type} [DecidableEq ε] [DecidableEq α] : DecidableEq (Except ε α) :=
  fun x y =>
    match x, y with
    | .ok a, .ok b =>
      if h : a = b then .isTrue (by rw [h]) else .isFalse (by simp [h])
    | .error a, .error b =>
      if h : a = b then .isTrue (by rw [h]) else .isFalse (by simp [h])
    | .ok _, .error _ => .isFalse (by simp)
    | .error _, .ok _ => .isFalse (by simp)

/-- Observable behaviour of one `notify_evaluation_api` call: the result
(`.error .deliveryFailed` models the final `raise`), the `time.sleep`
durations in order, and how many POST attempts were made. -/
structure NotifyRun where
  result : Except Err Unit
  sleeps : List Nat
  attempts : Nat
deriving DecidableEq, Repr

/-- `for i, delay in enumerate([1, 2, 4, 8])`: one attempt per iteration; a
200 returns immediately; any other status or a transport exception falls
through to `if i < 3: time.sleep(delay)`; an exhausted loop raises. -/
def notifyGo (post : Nat → Outcome) : List (Nat × Nat) → NotifyRun
  | [] => ⟨.error .deliveryFailed, [], 0⟩
  | (i, d) :: rest =>
    if is200 (post i) then ⟨.ok (), [], 1⟩
    else
      let r := notifyGo post rest
      ⟨r.result, (if i < 3 then [d] else []) ++ r.sleeps, r.attempts + 1⟩

/-- `notify_evaluation_api(payload)` with the POST outcomes supplied by
`post : attempt index → Outcome` (the payload itself does not influence the
control flow being verified). -/
def notify_evaluation_api (post : Nat → Outcome) : NotifyRun :=
  notifyGo post [(0, 1), (1, 2), (2, 4), (3, 8)]

/-! ## Task orchestrator (`process_request`, `process_revision_request`) -/

/-- The delivered notification body (the dict built in both flows minus
`evaluation_url`, which `notify_evaluation_api` pops as the delivery
target). -/
structure NotificationPayload where
  email : String
  task : String
  round : Nat
  nonce : String
  repo_url : String
  commit_sha : String
  pages_url : String
deriving DecidableEq, Repr

/-- One externally visible step of an orchestration run, recorded when the
corresponding helper is invoked, with the arguments it was given. -/
inductive Event where
  | evDecode
  | evGenCode
  | evGenReadme
  | evReviseCode
  | evReviseReadme
  | evCreateRepo (name : String)
  | evFetch (repo path : String)
  | evPublish (repo : String) (files : List (String × FileEntry)) (msg : String)
  | evPages (repo : String)
  | evSleep (secs : Nat)
  | evNotify (url : String) (payload : NotificationPayload)
deriving DecidableEq, Repr

/-- The parsed inbound task description (validated fields of `data`). -/
structure TaskData where
  task : String
  brief : String
  checks : Option (List String)
  attachments : Option (List Attachment)
  email : String
  nonce : String
  evaluation_url : String
deriving DecidableEq, Repr

/-- All external collaborators of one orchestration run: standard-library
codecs, the generation backend, and the repository backend's responses to
each request the run issues. -/
structure Env where
  decode : String → Option String
  enc : String → String
  gemini : String → Except Err String
  createResp : CreateResp
  put : String → PutPayload → PutResult
  getResp : String → GetResp
  pagesPost : PagesResp
  pagesGet : PagesResp
  post : Nat → Outcome
  user : String
  year : String

/-- The `files_to_push` dict of `process_request`: three entries, in insertion
order, none carrying a version token. -/
def files_to_push (html_content readme_content license_content : String) :
    List (String × FileEntry) :=
  [("index.html", { content := html_content, sha := none }),
   ("README.md", { content := readme_content, sha := none }),
   ("LICENSE", { content := license_content, sha := none })]

/-- The `files_to_update` dict of `process_revision_request`: two entries, each
carrying the version token fetched for that path. -/
def files_to_update (revised_html_content revised_readme_content : String)
    (html_sha readme_sha : String) : List (String × FileEntry) :=
  [("index.html", { content := revised_html_content, sha := some html_sha }),
   ("README.md", { content := revised_readme_content, sha := some readme_sha })]

/-- `process_request(data)` - the round-1 build flow, line by line: decode
attachments, generate markup and docs, compute the license text, ensure the
repository, publish the three files as one batch with no version tokens,
enable hosting, sleep 30, notify with round 1.  The second component is the
trace of helper invocations; an exception aborts the run with the trace made
so far. -/
def process_request (env : Env) (data : TaskData) : Except Err Unit × List Event :=
  let repo_name := data.task
  match process_attachments env.decode data.attachments with
  | .error e => (.error e, [.evDecode])
  | .ok attachments_content =>
    let checks := data.checks.getD []
    match generate_code_with_gemini env.gemini data.brief checks attachments_content with
    | .error e => (.error e, [.evDecode, .evGenCode])
    | .ok html_content =>
      match generate_readme_with_gemini env.gemini data.brief with
      | .error e => (.error e, [.evDecode, .evGenCode, .evGenReadme])
      | .ok readme_content =>
        let license_content := get_mit_license env.year env.user
        match create_github_repo env.user repo_name env.createResp with
        | .error e =>
          (.error e, [.evDecode, .evGenCode, .evGenReadme, .evCreateRepo repo_name])
        | .ok repo_info =>
          let files := files_to_push html_content readme_content license_content
          match (create_or_update_files_in_repo env.enc env.put files
              "feat: Initial commit").1 with
          | .error e =>
            (.error e,
             [.evDecode, .evGenCode, .evGenReadme, .evCreateRepo repo_name,
              .evPublish repo_name files "feat: Initial commit"])
          | .ok commit_sha =>
            match enable_github_pages env.pagesPost env.pagesGet with
            | .error e =>
              (.error e,
               [.evDecode, .evGenCode, .evGenReadme, .evCreateRepo repo_name,
                .evPublish repo_name files "feat: Initial commit",
                .evPages repo_name])
            | .ok pages_url =>
              let payload : NotificationPayload :=
                { email := data.email, task := data.task, round := 1,
                  nonce := data.nonce, repo_url := repo_info.html_url,
                  commit_sha := commit_sha, pages_url := pages_url }
              let r := notify_evaluation_api env.post
              (r.result,
               [.evDecode, .evGenCode, .evGenReadme, .evCreateRepo repo_name,
                .evPublish repo_name files "feat: Initial commit",
                .evPages repo_name, .evSleep 30,
                .evNotify data.evaluation_url payload])

/-- `process_revision_request(data)` - the round-2 revise flow: decode
attachments, fetch the existing markup and docs (with version tokens), revise
both, publish the two files carrying the fetched tokens, enable hosting
(idempotent), sleep 30, notify with round 2. -/
def process_revision_request (env : Env) (data : TaskData) :
    Except Err Unit × List Event :=
  let repo_name := data.task
  match process_attachments env.decode data.attachments with
  | .error e => (.error e, [.evDecode])
  | .ok attachments_content =>
    let checks := data.checks.getD []
    match get_file_from_repo env.decode "index.html" (env.getResp "index.html") with
    | .error e => (.error e, [.evDecode, .evFetch repo_name "index.html"])
    | .ok original_html =>
      match get_file_from_repo env.decode "README.md" (env.getResp "README.md") with
      | .error e =>
        (.error e,
         [.evDecode, .evFetch repo_name "index.html", .evFetch repo_name "README.md"])
      | .ok original_readme =>
        match revise_code_with_gemini env.gemini data.brief checks
            attachments_content original_html.content with
        | .error e =>
          (.error e,
           [.evDecode, .evFetch repo_name "index.html",
            .evFetch repo_name "README.md", .evReviseCode])
        | .ok revised_html_content =>
          match revise_readme_with_gemini env.gemini data.brief
              original_readme.content with
          | .error e =>
            (.error e,
             [.evDecode, .evFetch repo_name "index.html",
              .evFetch repo_name "README.md", .evReviseCode, .evReviseReadme])
          | .ok revised_readme_content =>
            let files := files_to_update revised_html_content revised_readme_content
              original_html.sha original_readme.sha
            match (create_or_update_files_in_repo env.enc env.put files
                "feat: Apply revisions for round 2").1 with
            | .error e =>
              (.error e,
               [.evDecode, .evFetch repo_name "index.html",
                .evFetch repo_name "README.md", .evReviseCode, .evReviseReadme,
                .evPublish repo_name files "feat: Apply revisions for round 2"])
            | .ok commit_sha =>
              match enable_github_pages env.pagesPost env.pagesGet with
              | .error e =>
                (.error e,
                 [.evDecode, .evFetch repo_name "index.html",
                  .evFetch repo_name "README.md", .evReviseCode, .evReviseReadme,
                  .evPublish repo_name files "feat: Apply revisions for round 2",
                  .evPages repo_name])
              | .ok pages_url =>
                let payload : NotificationPayload :=
                  { email := data.email, task := data.task, round := 2,
                    nonce := data.nonce,
                    repo_url := canonicalRepoUrl env.user repo_name,
                    commit_sha := commit_sha, pages_url := pages_url }
                let r := notify_evaluation_api env.post
                (r.result,
                 [.evDecode, .evFetch repo_name "index.html",
                  .evFetch repo_name "README.md", .evReviseCode, .evReviseReadme,
                  .evPublish repo_name files "feat: Apply revisions for round 2",
                  .evPages repo_name, .evSleep 30,
                  .evNotify data.evaluation_url payload])

/-- Recognizer for publication events. -/
def isPublishEv : Event → Bool
  | .evPublish _ _ _ => true
  | _ => false

/-- Recognizer for hosting-enablement events. -/
def isPagesEv : Event → Bool
  | .evPages _ => true
  | _ => false

/-- Recognizer for notification events. -/
def isNotifyEv : Event → Bool
  | .evNotify _ _ => true
  | _ => false

/-! ## Interface models of the repository backend (for the idempotency
claims), plus concrete fixtures used by witnesses. -/

/-- Model of the creation endpoint at its interface (spec section 6): the
backend tracks which repository names exist; creating a fresh name returns
201 with the repository URL and records the name; creating an existing name
returns 422. -/
def githubCreateBackend (existing : List String) (user name : String) :
    CreateResp × List String :=
  if name ∈ existing then (⟨422, ""⟩, existing)
  else (⟨201, canonicalRepoUrl user name⟩, name :: existing)

/-- Model of the pages POST endpoint: enabling a not-yet-enabled site returns
201 with the hosting URL and enables it; an already-enabled site yields a
non-201 conflict response. -/
def pagesBackendPost (enabled : Bool) (url : String) : PagesResp × Bool :=
  if enabled then (⟨409, ""⟩, true) else (⟨201, url⟩, true)

/-- Model of the pages GET endpoint: 200 with the hosting URL once enabled,
404 before. -/
def pagesBackendGet (enabled : Bool) (url : String) : PagesResp :=
  if enabled then ⟨200, url⟩ else ⟨404, ""⟩

/-- A fully successful environment: trivial codecs, a backend answering a
fixed text, and a repository backend accepting every request. -/
def envHappy : Env :=
  { decode := fun s => some s
    enc := fun s => s
    gemini := fun _ => .ok "raw"
    createResp := ⟨201, "https://github.com/u/demo-1"⟩
    put := fun _ _ => ⟨201, "sha9"⟩
    getResp := fun _ => ⟨200, "old", "vtok"⟩
    pagesPost := ⟨201, "https://u.github.io/demo-1/"⟩
    pagesGet := ⟨404, ""⟩
    post := fun _ => .status 200
    user := "u"
    year := "2026" }

/-- The build task of the spec's end-to-end scenario. -/
def dataDemo : TaskData :=
  { task := "demo-1", brief := "a todo app",
    checks := some ["has a delete button"], attachments := none,
    email := "a@b.com", nonce := "n1",
    evaluation_url := "https://eval.test/cb" }

/-- The revise task of the spec's end-to-end scenario. -/
def dataDemo2 : TaskData :=
  { task := "demo-1", brief := "also add a counter",
    checks := none, attachments := none,
    email := "a@b.com", nonce := "n2",
    evaluation_url := "https://eval.test/cb" }

/-! ## Theorems -/

theorem decodeOneAttachment_named (decode : String → Option String)
    (a : Attachment) (h : a.name.isSome = true) :
    decodeOneAttachment decode a = .ok (attachmentBlock decode a) := by
  rcases ha : a.name with _ | nm
  · rw [ha] at h; simp at h
  · unfold decodeOneAttachment attachmentBlock
    rcases tryBlock decode a with _ | s <;> simp [ha]

theorem attachmentsGo_named (decode : String → Option String)
    (atts : List Attachment) (h : ∀ a ∈ atts, a.name.isSome = true) :
    attachmentsGo decode atts = .ok (atts.map (attachmentBlock decode)) := by
  induction atts with
  | nil => rfl
  | cons a rest ih =>
    have ha : a.name.isSome = true := h a (by simp)
    have hrest : ∀ x ∈ rest, x.name.isSome = true := fun x hx => h x (by simp [hx])
    simp [attachmentsGo, decodeOneAttachment_named decode a ha, ih hrest]

theorem tryBlock_nameless (decode : String → Option String) (u : Option String) :
    tryBlock decode ⟨none, u⟩ = none := by
  unfold tryBlock
  cases u with
  | none => rfl
  | some s =>
    simp only
    cases hsp : splitFirstComma s with
    | none => rfl
    | some pr =>
      obtain ⟨h1, e1⟩ := pr
      cases hd : decode e1 <;> simp [hd]

theorem decodeOneAttachment_nameless (decode : String → Option String)
    (u : Option String) :
    decodeOneAttachment decode ⟨none, u⟩ = .error (.keyErr "name") := by
  unfold decodeOneAttachment
  rw [tryBlock_nameless]

theorem attachmentsGo_nameless (decode : String → Option String)
    (pre post : List Attachment) (u : Option String)
    (hpre : ∀ a ∈ pre, a.name.isSome = true) :
    attachmentsGo decode (pre ++ ⟨none, u⟩ :: post) = .error (.keyErr "name") := by
  induction pre with
  | nil => simp [attachmentsGo, decodeOneAttachment_nameless]
  | cons b bs ih =>
    have hb : b.name.isSome = true := hpre b (by simp)
    have hbs : ∀ a ∈ bs, a.name.isSome = true := fun a ha => hpre a (by simp [ha])
    simp [attachmentsGo, decodeOneAttachment_named decode b hb, ih hbs]

/-- C4, counterexample: the claim "for every attachments list, the
AttachmentDecoder never raises" is false.  For the one-element attachments
list whose entry has no `name` key and no `url` key, decoding the entry fails
(the `try` body raises `KeyError` on `attachment['url']`) and the `except`
handler then reads `attachment['name']` unguarded, so `process_attachments`
itself raises `KeyError` instead of substituting a failure block. -/
theorem attachments_decode_raises_cex :
    process_attachments (fun _ => none) (some [⟨none, none⟩]) =
      .error (.keyErr "name") := by
  rfl

/-- C4 (amended): for every attachments list in which every entry carries a
`name` key, the AttachmentDecoder never raises - each entry contributes its
decoded block, or the failure-marker block naming that attachment when its
decoding fails, and the remaining attachments are still processed (the output
is the join of every entry's block); an empty or absent attachments list
yields the empty string rather than an error. -/
theorem attachments_decode_amended (decode : String → Option String)
    (atts : List Attachment) (h : ∀ a ∈ atts, a.name.isSome = true) :
    process_attachments decode (some atts) =
      .ok (String.intercalate "\n\n" (atts.map (attachmentBlock decode)))
    ∧ process_attachments decode none = .ok ""
    ∧ process_attachments decode (some []) = .ok "" := by
  refine ⟨?_, rfl, rfl⟩
  cases atts with
  | nil => rfl
  | cons a rest =>
    simp [process_attachments, attachmentsGo_named decode _ h, Except.map]

/-- Witness for C4 (amended): one well-formed entry and one entry whose
payload fails to decode; the output joins a decoded block and a
decode-failure marker, and nothing is raised. -/
theorem attachments_decode_amended_witness :
    process_attachments
        (fun s => if s = "aGk=" then some "hi" else none)
        (some [⟨some "a.txt", some "data:text/plain;base64,aGk="⟩,
               ⟨some "b.txt", some "data:text/plain;base64,!!"⟩]) =
      .ok ("--- Attachment File: a.txt ---\nhi\n--- End of a.txt ---\n\n--- Attachment File: b.txt (DECODING FAILED) ---") := by
  have h := (attachments_decode_amended
    (fun s => if s = "aGk=" then some "hi" else none)
    [⟨some "a.txt", some "data:text/plain;base64,aGk="⟩,
     ⟨some "b.txt", some "data:text/plain;base64,!!"⟩] (by decide)).1
  rw [h]
  rfl

/-- C10: a decoding failure for an entry with no `name` key makes
`process_attachments` itself raise (the failure-marker branch reads the
entry's name unguarded), even when every earlier entry is well-named; and the
never-raises behaviour does hold for every entry that carries a `name` key. -/
theorem attachments_nameless_entry_raises (decode : String → Option String)
    (pre post : List Attachment) (u : Option String)
    (hpre : ∀ a ∈ pre, a.name.isSome = true) :
    process_attachments decode (some (pre ++ ⟨none, u⟩ :: post)) =
      .error (.keyErr "name")
    ∧ ∀ a : Attachment, a.name.isSome = true →
        decodeOneAttachment decode a = .ok (attachmentBlock decode a) := by
  refine ⟨?_, fun a ha => decodeOneAttachment_named decode a ha⟩
  have hgo := attachmentsGo_nameless decode pre post u hpre
  cases pre with
  | nil => simp_all [process_attachments, Except.map]
  | cons b bs => simp_all [process_attachments, Except.map]

/-- Witness for C10: a well-named first entry, then a nameless entry whose
data URI is well-formed but whose payload fails to decode; the call raises. -/
theorem attachments_nameless_entry_raises_witness :
    process_attachments (fun _ => none)
        (some [⟨some "a.txt", some "data:text/plain;base64,xx"⟩,
               ⟨none, some "data:text/plain;base64,yy"⟩]) =
      .error (.keyErr "name") := by
  have h := (attachments_nameless_entry_raises (fun _ => none)
    [⟨some "a.txt", some "data:text/plain;base64,xx"⟩] []
    (some "data:text/plain;base64,yy") (by decide)).1
  exact h

theorem is200_iff (o : Outcome) : is200 o = true ↔ o = .status 200 := by
  cases o with
  | status n => simp [is200]
  | exc => simp [is200]

theorem is200_eq_false {o : Outcome} (h : o ≠ .status 200) : is200 o = false := by
  cases o with
  | status n =>
    have hn : n ≠ 200 := fun hn => h (by rw [hn])
    simp [is200, hn]
  | exc => rfl

theorem notify_hit0 (post : Nat → Outcome) (H0 : post 0 = .status 200) :
    notify_evaluation_api post = ⟨.ok (), [], 1⟩ := by
  simp [notify_evaluation_api, notifyGo, (is200_iff (post 0)).mpr H0]

theorem notify_hit1 (post : Nat → Outcome) (H0 : post 0 ≠ .status 200)
    (H1 : post 1 = .status 200) :
    notify_evaluation_api post = ⟨.ok (), [1], 2⟩ := by
  simp [notify_evaluation_api, notifyGo, is200_eq_false H0,
    (is200_iff (post 1)).mpr H1]

theorem notify_hit2 (post : Nat → Outcome) (H0 : post 0 ≠ .status 200)
    (H1 : post 1 ≠ .status 200) (H2 : post 2 = .status 200) :
    notify_evaluation_api post = ⟨.ok (), [1, 2], 3⟩ := by
  simp [notify_evaluation_api, notifyGo, is200_eq_false H0, is200_eq_false H1,
    (is200_iff (post 2)).mpr H2]

theorem notify_hit3 (post : Nat → Outcome) (H0 : post 0 ≠ .status 200)
    (H1 : post 1 ≠ .status 200) (H2 : post 2 ≠ .status 200)
    (H3 : post 3 = .status 200) :
    notify_evaluation_api post = ⟨.ok (), [1, 2, 4], 4⟩ := by
  simp [notify_evaluation_api, notifyGo, is200_eq_false H0, is200_eq_false H1,
    is200_eq_false H2, (is200_iff (post 3)).mpr H3]

theorem notify_exhausted (post : Nat → Outcome) (H0 : post 0 ≠ .status 200)
    (H1 : post 1 ≠ .status 200) (H2 : post 2 ≠ .status 200)
    (H3 : post 3 ≠ .status 200) :
    notify_evaluation_api post = ⟨.error .deliveryFailed, [1, 2, 4], 4⟩ := by
  simp [notify_evaluation_api, notifyGo, is200_eq_false H0, is200_eq_false H1,
    is200_eq_false H2, is200_eq_false H3]

/-- C1: for every sequence of POST outcomes, `notify_evaluation_api` makes at
most 4 attempts; it succeeds exactly when one of the first 4 attempts returns
status 200, in which case it returns at the first such attempt (attempt `k+1`,
having slept `[1,2,4].take k`, i.e. delays 1, 2 and 4 before attempts 2, 3 and
4); any non-200 status or transport failure is retried under the same budget;
and when all 4 attempts fail it raises `DeliveryFailed` after sleeping exactly
1+2+4, with no sleep after the final attempt. -/
theorem notify_retry_policy (post : Nat → Outcome) :
    (notify_evaluation_api post).attempts ≤ 4
    ∧ ((notify_evaluation_api post).result = .ok () ↔
        ∃ i, i < 4 ∧ post i = .status 200)
    ∧ ((notify_evaluation_api post).result = .error .deliveryFailed ↔
        ∀ i, i < 4 → post i ≠ .status 200)
    ∧ ((∀ i, i < 4 → post i ≠ .status 200) →
        (notify_evaluation_api post).sleeps = [1, 2, 4])
    ∧ (∀ k, k < 4 → post k = .status 200 →
        (∀ j, j < k → post j ≠ .status 200) →
        (notify_evaluation_api post).result = .ok ()
        ∧ (notify_evaluation_api post).sleeps = List.take k [1, 2, 4]
        ∧ (notify_evaluation_api post).attempts = k + 1) := by
  by_cases H0 : post 0 = .status 200
  · rw [notify_hit0 post H0]
    refine ⟨by norm_num, ?_, ?_, ?_, ?_⟩
    · exact ⟨fun _ => ⟨0, by omega, H0⟩, fun _ => rfl⟩
    · constructor
      · intro hc; exact absurd hc (by simp)
      · intro hall; exact absurd H0 (hall 0 (by omega))
    · intro hall; exact absurd H0 (hall 0 (by omega))
    · intro k hk hpk hjk
      have hk0 : k = 0 := by
        by_contra hne
        exact hjk 0 (by omega) H0
      subst hk0
      exact ⟨rfl, rfl, rfl⟩
  · by_cases H1 : post 1 = .status 200
    · rw [notify_hit1 post H0 H1]
      refine ⟨by norm_num, ?_, ?_, ?_, ?_⟩
      · exact ⟨fun _ => ⟨1, by omega, H1⟩, fun _ => rfl⟩
      · constructor
        · intro hc; exact absurd hc (by simp)
        · intro hall; exact absurd H1 (hall 1 (by omega))
      · intro hall; exact absurd H1 (hall 1 (by omega))
      · intro k hk hpk hjk
        have hk1 : k = 1 := by
          rcases Nat.lt_trichotomy k 1 with hlt | heq | hgt
          · interval_cases k
            · exact absurd hpk H0
          · exact heq
          · exact absurd H1 (hjk 1 hgt)
        subst hk1
        exact ⟨rfl, rfl, rfl⟩
    · by_cases H2 : post 2 = .status 200
      · rw [notify_hit2 post H0 H1 H2]
        refine ⟨by norm_num, ?_, ?_, ?_, ?_⟩
        · exact ⟨fun _ => ⟨2, by omega, H2⟩, fun _ => rfl⟩
        · constructor
          · intro hc; exact absurd hc (by simp)
          · intro hall; exact absurd H2 (hall 2 (by omega))
        · intro hall; exact absurd H2 (hall 2 (by omega))
        · intro k hk hpk hjk
          have hk2 : k = 2 := by
            rcases Nat.lt_trichotomy k 2 with hlt | heq | hgt
            · interval_cases k
              · exact absurd hpk H0
              · exact absurd hpk H1
            · exact heq
            · exact absurd H2 (hjk 2 hgt)
          subst hk2
          exact ⟨rfl, rfl, rfl⟩
      · by_cases H3 : post 3 = .status 200
        · rw [notify_hit3 post H0 H1 H2 H3]
          refine ⟨by norm_num, ?_, ?_, ?_, ?_⟩
          · exact ⟨fun _ => ⟨3, by omega, H3⟩, fun _ => rfl⟩
          · constructor
            · intro hc; exact absurd hc (by simp)
            · intro hall; exact absurd H3 (hall 3 (by omega))
          · intro hall; exact absurd H3 (hall 3 (by omega))
          · intro k hk hpk hjk
            have hk3 : k = 3 := by
              rcases Nat.lt_trichotomy k 3 with hlt | heq | hgt
              · interval_cases k
                · exact absurd hpk H0
                · exact absurd hpk H1
                · exact absurd hpk H2
              · exact heq
              · omega
            subst hk3
            exact ⟨rfl, rfl, rfl⟩
        · rw [notify_exhausted post H0 H1 H2 H3]
          refine ⟨by norm_num, ?_, ?_, ?_, ?_⟩
          · constructor
            · intro hc; exact absurd hc (by simp)
            · rintro ⟨i, hi, hpi⟩
              interval_cases i
              · exact absurd hpi H0
              · exact absurd hpi H1
              · exact absurd hpi H2
              · exact absurd hpi H3
          · constructor
            · intro _ i hi
              interval_cases i
              · exact H0
              · exact H1
              · exact H2
              · exact H3
            · intro _; rfl
          · intro _; rfl
          · intro k hk hpk hjk
            interval_cases k
            · exact absurd hpk H0
            · exact absurd hpk H1
            · exact absurd hpk H2
            · exact absurd hpk H3

/-- Witness for C1: non-200 on the first 3 attempts and 200 on the 4th - the
call succeeds after sleeping exactly 1+2+4 over 4 attempts. -/
theorem notify_retry_policy_witness :
    (notify_evaluation_api
        (fun i => if i < 3 then .status 500 else .status 200)).result = .ok ()
    ∧ (notify_evaluation_api
        (fun i => if i < 3 then .status 500 else .status 200)).sleeps = [1, 2, 4]
    ∧ (notify_evaluation_api
        (fun i => if i < 3 then .status 500 else .status 200)).attempts = 4 := by
  have h := (notify_retry_policy
      (fun i => if i < 3 then .status 500 else .status 200)).2.2.2.2 3
    (by omega) (by norm_num) (by intro j hj; simp [hj])
  exact ⟨h.1, h.2.1, h.2.2⟩

/-- C5: repository creation is idempotent in the name.  Against the
interface model of the creation endpoint, a first call on a fresh name
succeeds with the repository URL, and a second call on the same name (which
the backend now reports as already existing, status 422) also succeeds and
returns the same URL as the fresh creation - nothing is raised. -/
theorem ensure_repository_idempotent (user name : String)
    (existing : List String) (h : name ∉ existing) :
    create_github_repo user name (githubCreateBackend existing user name).1 =
      .ok ⟨canonicalRepoUrl user name⟩
    ∧ create_github_repo user name
        (githubCreateBackend (githubCreateBackend existing user name).2 user name).1 =
      .ok ⟨canonicalRepoUrl user name⟩ := by
  constructor
  · simp [githubCreateBackend, h, create_github_repo]
  · simp [githubCreateBackend, h, create_github_repo]

/-- Witness for C5 on a concrete fresh name. -/
theorem ensure_repository_idempotent_witness :
    create_github_repo "u" "demo-1" (githubCreateBackend [] "u" "demo-1").1 =
      .ok ⟨canonicalRepoUrl "u" "demo-1"⟩
    ∧ create_github_repo "u" "demo-1"
        (githubCreateBackend (githubCreateBackend [] "u" "demo-1").2 "u" "demo-1").1 =
      .ok ⟨canonicalRepoUrl "u" "demo-1"⟩ :=
  ensure_repository_idempotent "u" "demo-1" [] (by simp)

/-- C6: hosting enablement is idempotent.  Against the interface model of the
pages endpoints, the first call enables hosting and returns the hosting URL
(POST answers 201); the second call's POST reports already-enabled (non-201),
so the code falls back to the GET and returns the same existing hosting URL -
nothing is raised. -/
theorem enable_hosting_idempotent (url : String) :
    enable_github_pages (pagesBackendPost false url).1 (pagesBackendGet false url) =
      .ok url
    ∧ enable_github_pages (pagesBackendPost (pagesBackendPost false url).2 url).1
        (pagesBackendGet (pagesBackendPost false url).2 url) = .ok url := by
  constructor
  · simp [pagesBackendPost, pagesBackendGet, enable_github_pages]
  · simp [pagesBackendPost, pagesBackendGet, enable_github_pages]

theorem pushGo_writes (enc : String → String) (put : String → PutPayload → PutResult)
    (msg : String) (files : List (String × FileEntry)) (latest : String) :
    (pushGo enc put msg files latest).2 =
      (files.takeWhile (fun pd => putOk (put pd.1 (mkPayload enc msg pd.2)))).map
        Prod.fst := by
  induction files generalizing latest with
  | nil => rfl
  | cons pd rest ih =>
    obtain ⟨p, d⟩ := pd
    by_cases hc : putOk (put p (mkPayload enc msg d)) = true
    · simp [pushGo, hc, List.takeWhile_cons, ih]
    · simp only [Bool.not_eq_true] at hc
      simp [pushGo, hc, List.takeWhile_cons]

theorem pushGo_all_ok (enc : String → String) (put : String → PutPayload → PutResult)
    (msg : String) (init : List (String × FileEntry)) (lastPd : String × FileEntry)
    (latest : String)
    (h : ∀ pd ∈ init ++ [lastPd], putOk (put pd.1 (mkPayload enc msg pd.2)) = true) :
    (pushGo enc put msg (init ++ [lastPd]) latest).1 =
      .ok ((put lastPd.1 (mkPayload enc msg lastPd.2)).commitSha) := by
  induction init generalizing latest with
  | nil =>
    obtain ⟨p, d⟩ := lastPd
    have hp := h (p, d) (by simp)
    simp [pushGo, hp]
  | cons pd rest ih =>
    obtain ⟨p, d⟩ := pd
    have hp := h (p, d) (by simp)
    have hr : ∀ x ∈ rest ++ [lastPd], putOk (put x.1 (mkPayload enc msg x.2)) = true :=
      fun x hx => h x (by simp at hx ⊢; tauto)
    simp [pushGo, hp, ih _ hr]

theorem pushGo_fails (enc : String → String) (put : String → PutPayload → PutResult)
    (msg : String) (pre : List (String × FileEntry)) (p : String) (d : FileEntry)
    (post : List (String × FileEntry)) (latest : String)
    (hpre : ∀ pd ∈ pre, putOk (put pd.1 (mkPayload enc msg pd.2)) = true)
    (hfail : putOk (put p (mkPayload enc msg d)) = false) :
    (pushGo enc put msg (pre ++ (p, d) :: post) latest).1 =
      .error (.pushFailed p (put p (mkPayload enc msg d)).status)
    ∧ (pushGo enc put msg (pre ++ (p, d) :: post) latest).2 = pre.map Prod.fst := by
  induction pre generalizing latest with
  | nil => simp [pushGo, hfail]
  | cons pd rest ih =>
    obtain ⟨q, e⟩ := pd
    have hq := hpre (q, e) (by simp)
    have hr : ∀ x ∈ rest, putOk (put x.1 (mkPayload enc msg x.2)) = true :=
      fun x hx => hpre x (by simp [hx])
    simp only [List.cons_append, pushGo, hq, if_true]
    refine ⟨(ih _ hr).1, ?_⟩
    rw [show rest.append ((p, d) :: post) = rest ++ (p, d) :: post from rfl,
      (ih _ hr).2]
    simp

/-- C7: `create_or_update_files_in_repo` applies the writes in the order the
caller supplied (the committed paths are exactly the longest all-successful
prefix of that order, so earlier writes of a failed batch stay committed with
no rollback); when every write succeeds it returns the commit sha of the last
written file; and the first failing write aborts the batch at once with an
error, never reporting overall success. -/
theorem publish_batch_order_and_failure (enc : String → String)
    (put : String → PutPayload → PutResult) (files : List (String × FileEntry))
    (msg : String) :
    (create_or_update_files_in_repo enc put files msg).2 =
      (files.takeWhile (fun pd => putOk (put pd.1 (mkPayload enc msg pd.2)))).map
        Prod.fst
    ∧ (∀ init lastPd, files = init ++ [lastPd] →
        (∀ pd ∈ files, putOk (put pd.1 (mkPayload enc msg pd.2)) = true) →
        (create_or_update_files_in_repo enc put files msg).1 =
          .ok ((put lastPd.1 (mkPayload enc msg lastPd.2)).commitSha))
    ∧ (∀ pre p d post, files = pre ++ (p, d) :: post →
        (∀ pd ∈ pre, putOk (put pd.1 (mkPayload enc msg pd.2)) = true) →
        putOk (put p (mkPayload enc msg d)) = false →
        (create_or_update_files_in_repo enc put files msg).1 =
          .error (.pushFailed p (put p (mkPayload enc msg d)).status)
        ∧ (create_or_update_files_in_repo enc put files msg).2 =
          pre.map Prod.fst) := by
  refine ⟨pushGo_writes enc put msg files "", ?_, ?_⟩
  · intro init lastPd hsplit hall
    subst hsplit
    exact pushGo_all_ok enc put msg init lastPd "" hall
  · intro pre p d post hsplit hpre hfail
    subst hsplit
    exact pushGo_fails enc put msg pre p d post "" hpre hfail

/-- Witness for C7: a three-file batch whose second write fails - the result
is the error for that file and the only committed write is the first file. -/
theorem publish_batch_order_and_failure_witness :
    (create_or_update_files_in_repo (fun s => s)
        (fun p _ => if p = "a" then ⟨201, "s1"⟩ else ⟨500, "x"⟩)
        [("a", ⟨"ca", none⟩), ("b", ⟨"cb", none⟩), ("c", ⟨"cc", none⟩)] "m").1 =
      .error (.pushFailed "b" 500)
    ∧ (create_or_update_files_in_repo (fun s => s)
        (fun p _ => if p = "a" then ⟨201, "s1"⟩ else ⟨500, "x"⟩)
        [("a", ⟨"ca", none⟩), ("b", ⟨"cb", none⟩), ("c", ⟨"cc", none⟩)] "m").2 =
      ["a"] := by
  have h := (publish_batch_order_and_failure (fun s => s)
      (fun p _ => if p = "a" then ⟨201, "s1"⟩ else ⟨500, "x"⟩)
      [("a", ⟨"ca", none⟩), ("b", ⟨"cb", none⟩), ("c", ⟨"cc", none⟩)] "m").2.2
    [("a", ⟨"ca", none⟩)] "b" ⟨"cb", none⟩ [("c", ⟨"cc", none⟩)]
    rfl (by decide) (by decide)
  exact ⟨h.1, h.2⟩

/-- C8, counterexample: the guarantee "every ContentGenerator operation
returns non-empty text or fails with a BackendError" is false.  When the
backend responds with the non-empty text consisting of an html fence opener
immediately followed by the closer, extraction succeeds with an empty group,
and `generate_code_with_gemini` returns the empty string without raising any
error. -/
theorem generate_markup_empty_cex :
    generate_code_with_gemini (fun _ => .ok "```html```") "b" [] "" = .ok ""
    ∧ String.length "" = 0 := by
  constructor
  · rfl
  · rfl

/-- C8 (amended): every ContentGenerator markup operation either propagates
the backend's failure or returns text - possibly empty, so no non-emptiness
guarantee holds; in particular, when the backend response contains no fenced
"html" code block, `generate_markup` (and `revise_markup`) return the raw
response text verbatim rather than raising, and when a fenced block is
present they return its stripped contents. -/
theorem generate_markup_fallback_amended (g : String → Except Err String)
    (brief : String) (checks : List String) (att orig : String) :
    (∀ e, g (generate_code_prompt brief checks att) = .error e →
        generate_code_with_gemini g brief checks att = .error e)
    ∧ (∀ t, g (generate_code_prompt brief checks att) = .ok t →
        generate_code_with_gemini g brief checks att = .ok ((extract_html t).getD t))
    ∧ (∀ t, g (generate_code_prompt brief checks att) = .ok t →
        extract_html t = none →
        generate_code_with_gemini g brief checks att = .ok t)
    ∧ (∀ e, g (revise_code_prompt brief checks att orig) = .error e →
        revise_code_with_gemini g brief checks att orig = .error e)
    ∧ (∀ t, g (revise_code_prompt brief checks att orig) = .ok t →
        revise_code_with_gemini g brief checks att orig =
          .ok ((extract_html t).getD t)) := by
  refine ⟨?_, ?_, ?_, ?_, ?_⟩
  · intro e he; simp [generate_code_with_gemini, he]
  · intro t ht
    simp only [generate_code_with_gemini, ht]
    cases hx : extract_html t <;> simp [hx]
  · intro t ht hx
    simp [generate_code_with_gemini, ht, hx]
  · intro e he; simp [revise_code_with_gemini, he]
  · intro t ht
    simp only [revise_code_with_gemini, ht]
    cases hx : extract_html t <;> simp [hx]

/-- Witness for C8 (amended): a backend response with no fenced html block is
returned verbatim. -/
theorem generate_markup_fallback_witness :
    generate_code_with_gemini (fun _ => .ok "hello") "b" [] "" = .ok "hello" := by
  exact (generate_markup_fallback_amended (fun _ => .ok "hello")
    "b" [] "" "").2.2.1 "hello" rfl (by decide)

theorem process_request_shape (env : Env) (data : TaskData) :
    (∃ e, process_request env data = (.error e, [.evDecode]))
    ∨ (∃ e, process_request env data = (.error e, [.evDecode, .evGenCode]))
    ∨ (∃ e, process_request env data =
        (.error e, [.evDecode, .evGenCode, .evGenReadme]))
    ∨ (∃ e, process_request env data =
        (.error e, [.evDecode, .evGenCode, .evGenReadme, .evCreateRepo data.task]))
    ∨ (∃ e html readme, process_request env data =
        (.error e,
         [.evDecode, .evGenCode, .evGenReadme, .evCreateRepo data.task,
          .evPublish data.task
            (files_to_push html readme (get_mit_license env.year env.user))
            "feat: Initial commit"]))
    ∨ (∃ e html readme, process_request env data =
        (.error e,
         [.evDecode, .evGenCode, .evGenReadme, .evCreateRepo data.task,
          .evPublish data.task
            (files_to_push html readme (get_mit_license env.year env.user))
            "feat: Initial commit", .evPages data.task]))
    ∨ (∃ html readme p, process_request env data =
        ((notify_evaluation_api env.post).result,
         [.evDecode, .evGenCode, .evGenReadme, .evCreateRepo data.task,
          .evPublish data.task
            (files_to_push html readme (get_mit_license env.year env.user))
            "feat: Initial commit", .evPages data.task, .evSleep 30,
          .evNotify data.evaluation_url p])) := by
  cases hA : process_attachments env.decode data.attachments with
  | error e => exact Or.inl ⟨e, by simp [process_request, hA]⟩
  | ok att =>
    cases hG : generate_code_with_gemini env.gemini data.brief
        (data.checks.getD []) att with
    | error e => exact Or.inr (Or.inl ⟨e, by simp [process_request, hA, hG]⟩)
    | ok html =>
      cases hR : generate_readme_with_gemini env.gemini data.brief with
      | error e =>
        exact Or.inr (Or.inr (Or.inl ⟨e, by simp [process_request, hA, hG, hR]⟩))
      | ok readme =>
        cases hC : create_github_repo env.user data.task env.createResp with
        | error e =>
          exact Or.inr (Or.inr (Or.inr (Or.inl
            ⟨e, by simp [process_request, hA, hG, hR, hC]⟩)))
        | ok repoInfo =>
          cases hP : (create_or_update_files_in_repo env.enc env.put
              (files_to_push html readme (get_mit_license env.year env.user))
              "feat: Initial commit").1 with
          | error e =>
            exact Or.inr (Or.inr (Or.inr (Or.inr (Or.inl
              ⟨e, html, readme, by simp [process_request, hA, hG, hR, hC, hP]⟩))))
          | ok sha =>
            cases hE : enable_github_pages env.pagesPost env.pagesGet with
            | error e =>
              exact Or.inr (Or.inr (Or.inr (Or.inr (Or.inr (Or.inl
                ⟨e, html, readme,
                 by simp [process_request, hA, hG, hR, hC, hP, hE]⟩)))))
            | ok pages =>
              exact Or.inr (Or.inr (Or.inr (Or.inr (Or.inr (Or.inr
                ⟨html, readme,
                 ⟨data.email, data.task, 1, data.nonce, repoInfo.html_url, sha, pages⟩,
                 by simp [process_request, hA, hG, hR, hC, hP, hE]⟩)))))

theorem process_revision_shape (env : Env) (data : TaskData) :
    (∃ e, process_revision_request env data = (.error e, [.evDecode]))
    ∨ (∃ e, process_revision_request env data =
        (.error e, [.evDecode, .evFetch data.task "index.html"]))
    ∨ (∃ e, process_revision_request env data =
        (.error e,
         [.evDecode, .evFetch data.task "index.html",
          .evFetch data.task "README.md"]))
    ∨ (∃ e, process_revision_request env data =
        (.error e,
         [.evDecode, .evFetch data.task "index.html",
          .evFetch data.task "README.md", .evReviseCode]))
    ∨ (∃ e, process_revision_request env data =
        (.error e,
         [.evDecode, .evFetch data.task "index.html",
          .evFetch data.task "README.md", .evReviseCode, .evReviseReadme]))
    ∨ (∃ e fh fr rh rr,
        get_file_from_repo env.decode "index.html" (env.getResp "index.html") =
          .ok fh
        ∧ get_file_from_repo env.decode "README.md" (env.getResp "README.md") =
          .ok fr
        ∧ process_revision_request env data =
          (.error e,
           [.evDecode, .evFetch data.task "index.html",
            .evFetch data.task "README.md", .evReviseCode, .evReviseReadme,
            .evPublish data.task (files_to_update rh rr fh.sha fr.sha)
              "feat: Apply revisions for round 2"]))
    ∨ (∃ e fh fr rh rr,
        get_file_from_repo env.decode "index.html" (env.getResp "index.html") =
          .ok fh
        ∧ get_file_from_repo env.decode "README.md" (env.getResp "README.md") =
          .ok fr
        ∧ process_revision_request env data =
          (.error e,
           [.evDecode, .evFetch data.task "index.html",
            .evFetch data.task "README.md", .evReviseCode, .evReviseReadme,
            .evPublish data.task (files_to_update rh rr fh.sha fr.sha)
              "feat: Apply revisions for round 2", .evPages data.task]))
    ∨ (∃ fh fr rh rr p,
        get_file_from_repo env.decode "index.html" (env.getResp "index.html") =
          .ok fh
        ∧ get_file_from_repo env.decode "README.md" (env.getResp "README.md") =
          .ok fr
        ∧ process_revision_request env data =
          ((notify_evaluation_api env.post).result,
           [.evDecode, .evFetch data.task "index.html",
            .evFetch data.task "README.md", .evReviseCode, .evReviseReadme,
            .evPublish data.task (files_to_update rh rr fh.sha fr.sha)
              "feat: Apply revisions for round 2", .evPages data.task,
            .evSleep 30, .evNotify data.evaluation_url p])) := by
  cases hA : process_attachments env.decode data.attachments with
  | error e => exact Or.inl ⟨e, by simp [process_revision_request, hA]⟩
  | ok att =>
    cases hF1 : get_file_from_repo env.decode "index.html"
        (env.getResp "index.html") with
    | error e =>
      exact Or.inr (Or.inl ⟨e, by simp [process_revision_request, hA, hF1]⟩)
    | ok fh =>
      cases hF2 : get_file_from_repo env.decode "README.md"
          (env.getResp "README.md") with
      | error e =>
        exact Or.inr (Or.inr (Or.inl
          ⟨e, by simp [process_revision_request, hA, hF1, hF2]⟩))
      | ok fr =>
        cases hV1 : revise_code_with_gemini env.gemini data.brief
            (data.checks.getD []) att fh.content with
        | error e =>
          exact Or.inr (Or.inr (Or.inr (Or.inl
            ⟨e, by simp [process_revision_request, hA, hF1, hF2, hV1]⟩)))
        | ok rh =>
          cases hV2 : revise_readme_with_gemini env.gemini data.brief fr.content with
          | error e =>
            exact Or.inr (Or.inr (Or.inr (Or.inr (Or.inl
              ⟨e, by simp [process_revision_request, hA, hF1, hF2, hV1, hV2]⟩))))
          | ok rr =>
            cases hP : (create_or_update_files_in_repo env.enc env.put
                (files_to_update rh rr fh.sha fr.sha)
                "feat: Apply revisions for round 2").1 with
            | error e =>
              exact Or.inr (Or.inr (Or.inr (Or.inr (Or.inr (Or.inl
                ⟨e, fh, fr, rh, rr, rfl, rfl,
                 by simp [process_revision_request, hA, hF1, hF2, hV1, hV2, hP]⟩)))))
            | ok sha =>
              cases hE : enable_github_pages env.pagesPost env.pagesGet with
              | error e =>
                exact Or.inr (Or.inr (Or.inr (Or.inr (Or.inr (Or.inr (Or.inl
                  ⟨e, fh, fr, rh, rr, rfl, rfl,
                   by simp [process_revision_request, hA, hF1, hF2, hV1, hV2,
                     hP, hE]⟩))))))
              | ok pages =>
                exact Or.inr (Or.inr (Or.inr (Or.inr (Or.inr (Or.inr (Or.inr
                  ⟨fh, fr, rh, rr,
                   ⟨data.email, data.task, 2, data.nonce,
                    canonicalRepoUrl env.user data.task, sha, pages⟩,
                   rfl, rfl,
                   by simp [process_revision_request, hA, hF1, hF2, hV1, hV2,
                     hP, hE]⟩))))))

/-- C2: in every round-1 build run, the batch file-publication helper is
invoked at most once, every invocation carries exactly the three paths
`index.html`, `README.md`, `LICENSE` in that order with no version token on
any entry, and every run that completes successfully invoked it exactly
once. -/
theorem build_publish_batch_once (env : Env) (data : TaskData) :
    (∀ r fs m, Event.evPublish r fs m ∈ (process_request env data).2 →
        fs.map Prod.fst = ["index.html", "README.md", "LICENSE"]
        ∧ ∀ pd ∈ fs, pd.2.sha = none)
    ∧ ((process_request env data).2.filter isPublishEv).length ≤ 1
    ∧ ((process_request env data).1 = .ok () →
        ((process_request env data).2.filter isPublishEv).length = 1) := by
  rcases process_request_shape env data with
    ⟨e, hq⟩ | ⟨e, hq⟩ | ⟨e, hq⟩ | ⟨e, hq⟩ | ⟨e, html, readme, hq⟩ |
    ⟨e, html, readme, hq⟩ | ⟨html, readme, p, hq⟩ <;>
  rw [hq] <;> simp [isPublishEv, files_to_push] <;>
    (intro r fs m hr hfs hm; subst hfs; simp
     try (rintro a b (⟨_, rfl⟩ | ⟨_, rfl⟩ | ⟨_, rfl⟩) <;> rfl))

/-- Witness for C2: a fully successful concrete build run publishes exactly
once. -/
theorem build_publish_batch_once_witness :
    ((process_request envHappy dataDemo).2.filter isPublishEv).length = 1 :=
  (build_publish_batch_once envHappy dataDemo).2.2 (by decide)

/-- C3: in every round-2 revise run, whenever the batch publication is
invoked, both `index.html` and `README.md` were fetched earlier in the run
(before the only write), the batch consists of exactly those two files, and
each file carries the version token returned by its fetch. -/
theorem revise_fetch_before_publish (env : Env) (data : TaskData) :
    ∀ r fs m, Event.evPublish r fs m ∈ (process_revision_request env data).2 →
      (∃ pre post, (process_revision_request env data).2 =
          pre ++ Event.evPublish r fs m :: post
        ∧ Event.evFetch data.task "index.html" ∈ pre
        ∧ Event.evFetch data.task "README.md" ∈ pre)
      ∧ fs.map Prod.fst = ["index.html", "README.md"]
      ∧ (∃ fh fr rh rr,
          get_file_from_repo env.decode "index.html" (env.getResp "index.html") =
            .ok fh
        ∧ get_file_from_repo env.decode "README.md" (env.getResp "README.md") =
            .ok fr
        ∧ fs = files_to_update rh rr fh.sha fr.sha) := by
  rcases process_revision_shape env data with
    ⟨e, hq⟩ | ⟨e, hq⟩ | ⟨e, hq⟩ | ⟨e, hq⟩ | ⟨e, hq⟩ |
    ⟨e, fh, fr, rh, rr, hf1, hf2, hq⟩ |
    ⟨e, fh, fr, rh, rr, hf1, hf2, hq⟩ |
    ⟨fh, fr, rh, rr, p, hf1, hf2, hq⟩ <;>
  intro r fs m hmem <;> rw [hq] at hmem <;> simp at hmem
  · obtain ⟨hr, hfs, hm⟩ := hmem
    subst hr; subst hfs; subst hm
    refine ⟨⟨[.evDecode, .evFetch data.task "index.html",
        .evFetch data.task "README.md", .evReviseCode, .evReviseReadme], [],
        ?_, by simp, by simp⟩, by simp [files_to_update],
      fh, fr, rh, rr, hf1, hf2, rfl⟩
    rw [hq]; rfl
  · obtain ⟨hr, hfs, hm⟩ := hmem
    subst hr; subst hfs; subst hm
    refine ⟨⟨[.evDecode, .evFetch data.task "index.html",
        .evFetch data.task "README.md", .evReviseCode, .evReviseReadme],
        [.evPages data.task],
        ?_, by simp, by simp⟩, by simp [files_to_update],
      fh, fr, rh, rr, hf1, hf2, rfl⟩
    rw [hq]; rfl
  · obtain ⟨hr, hfs, hm⟩ := hmem
    subst hr; subst hfs; subst hm
    refine ⟨⟨[.evDecode, .evFetch data.task "index.html",
        .evFetch data.task "README.md", .evReviseCode, .evReviseReadme],
        [.evPages data.task, .evSleep 30, .evNotify data.evaluation_url p],
        ?_, by simp, by simp⟩, by simp [files_to_update],
      fh, fr, rh, rr, hf1, hf2, rfl⟩
    rw [hq]; rfl

/-- Witness for C3: the publish event of a fully successful concrete revise
run is preceded by both fetches and carries the fetched version tokens. -/
theorem revise_fetch_before_publish_witness :
    (∃ pre post, (process_revision_request envHappy dataDemo2).2 =
        pre ++ Event.evPublish "demo-1"
          (files_to_update "raw" "raw" "vtok" "vtok")
          "feat: Apply revisions for round 2" :: post
      ∧ Event.evFetch "demo-1" "index.html" ∈ pre
      ∧ Event.evFetch "demo-1" "README.md" ∈ pre)
    ∧ (files_to_update "raw" "raw" "vtok" "vtok").map Prod.fst =
        ["index.html", "README.md"]
    ∧ (∃ fh fr rh rr,
        get_file_from_repo envHappy.decode "index.html"
          (envHappy.getResp "index.html") = .ok fh
      ∧ get_file_from_repo envHappy.decode "README.md"
          (envHappy.getResp "README.md") = .ok fr
      ∧ files_to_update "raw" "raw" "vtok" "vtok" =
          files_to_update rh rr fh.sha fr.sha) :=
  revise_fetch_before_publish envHappy dataDemo2 "demo-1"
    (files_to_update "raw" "raw" "vtok" "vtok")
    "feat: Apply revisions for round 2" (by decide)

theorem build_flow_notify (env : Env) (data : TaskData) :
    (∀ u p, Event.evNotify u p ∈ (process_request env data).2 →
        ∃ fs, (process_request env data).2 =
          [.evDecode, .evGenCode, .evGenReadme, .evCreateRepo data.task,
           .evPublish data.task fs "feat: Initial commit", .evPages data.task,
           .evSleep 30, .evNotify u p])
    ∧ ((process_request env data).1 = .ok () →
        ∃ u p, Event.evNotify u p ∈ (process_request env data).2)
    ∧ ((process_request env data).2.filter isPublishEv).length ≤ 1
    ∧ ((process_request env data).2.filter isPagesEv).length ≤ 1
    ∧ ((process_request env data).2.filter isNotifyEv).length ≤ 1 := by
  rcases process_request_shape env data with
    ⟨e, hq⟩ | ⟨e, hq⟩ | ⟨e, hq⟩ | ⟨e, hq⟩ | ⟨e, html, readme, hq⟩ |
    ⟨e, html, readme, hq⟩ | ⟨html, readme, p, hq⟩ <;> rw [hq] <;>
    simp [isPublishEv, isPagesEv, isNotifyEv]

theorem revise_flow_notify (env : Env) (data : TaskData) :
    (∀ u p, Event.evNotify u p ∈ (process_revision_request env data).2 →
        ∃ fs, (process_revision_request env data).2 =
          [.evDecode, .evFetch data.task "index.html",
           .evFetch data.task "README.md", .evReviseCode, .evReviseReadme,
           .evPublish data.task fs "feat: Apply revisions for round 2",
           .evPages data.task, .evSleep 30, .evNotify u p])
    ∧ ((process_revision_request env data).1 = .ok () →
        ∃ u p, Event.evNotify u p ∈ (process_revision_request env data).2)
    ∧ ((process_revision_request env data).2.filter isPublishEv).length ≤ 1
    ∧ ((process_revision_request env data).2.filter isPagesEv).length ≤ 1
    ∧ ((process_revision_request env data).2.filter isNotifyEv).length ≤ 1 := by
  rcases process_revision_shape env data with
    ⟨e, hq⟩ | ⟨e, hq⟩ | ⟨e, hq⟩ | ⟨e, hq⟩ | ⟨e, hq⟩ |
    ⟨e, fh, fr, rh, rr, hf1, hf2, hq⟩ |
    ⟨e, fh, fr, rh, rr, hf1, hf2, hq⟩ |
    ⟨fh, fr, rh, rr, p, hf1, hf2, hq⟩ <;> rw [hq] <;>
    simp [isPublishEv, isPagesEv, isNotifyEv]

/-- C9: in both flows, the notification step runs only after file publication
and hosting enablement completed successfully - whenever a notification is
invoked, the run's trace is exactly the full pipeline in order, with the
publication and hosting steps before the notification; every successful run
reaches the notification; and no step is invoked more than once (the
orchestrator itself retries nothing - only the dispatcher retries
internally, per C1 - and publishes no compensating rollback writes). -/
theorem notify_after_publish_and_hosting (env : Env) (data : TaskData) :
    (∀ u p, Event.evNotify u p ∈ (process_request env data).2 →
        ∃ fs, (process_request env data).2 =
          [.evDecode, .evGenCode, .evGenReadme, .evCreateRepo data.task,
           .evPublish data.task fs "feat: Initial commit", .evPages data.task,
           .evSleep 30, .evNotify u p])
    ∧ ((process_request env data).1 = .ok () →
        ∃ u p, Event.evNotify u p ∈ (process_request env data).2)
    ∧ ((process_request env data).2.filter isPublishEv).length ≤ 1
    ∧ ((process_request env data).2.filter isPagesEv).length ≤ 1
    ∧ ((process_request env data).2.filter isNotifyEv).length ≤ 1
    ∧ (∀ u p, Event.evNotify u p ∈ (process_revision_request env data).2 →
        ∃ fs, (process_revision_request env data).2 =
          [.evDecode, .evFetch data.task "index.html",
           .evFetch data.task "README.md", .evReviseCode, .evReviseReadme,
           .evPublish data.task fs "feat: Apply revisions for round 2",
           .evPages data.task, .evSleep 30, .evNotify u p])
    ∧ ((process_revision_request env data).1 = .ok () →
        ∃ u p, Event.evNotify u p ∈ (process_revision_request env data).2)
    ∧ ((process_revision_request env data).2.filter isPublishEv).length ≤ 1
    ∧ ((process_revision_request env data).2.filter isPagesEv).length ≤ 1
    ∧ ((process_revision_request env data).2.filter isNotifyEv).length ≤ 1 := by
  obtain ⟨b1, b2, b3, b4, b5⟩ := build_flow_notify env data
  obtain ⟨r1, r2, r3, r4, r5⟩ := revise_flow_notify env data
  exact ⟨b1, b2, b3, b4, b5, r1, r2, r3, r4, r5⟩

/-- Witness for C9: both concrete happy-path runs succeed and invoke the
notification. -/
theorem notify_after_publish_and_hosting_witness :
    (∃ u p, Event.evNotify u p ∈ (process_request envHappy dataDemo).2)
    ∧ (∃ u p, Event.evNotify u p ∈ (process_revision_request envHappy dataDemo2).2) :=
  ⟨(notify_after_publish_and_hosting envHappy dataDemo).2.1 (by decide),
   (notify_after_publish_and_hosting envHappy dataDemo2).2.2.2.2.2.2.1 (by decide)⟩
